import Mathlib

/-!
Verification of the cc-jam-aws-hackday event-finder frontend and of the
spec-described aggregation backend.

The `Chat` component (src/frontend/src/components/Chat.tsx) is embedded as a
pure state-transition function: React state becomes an explicit `ChatState`,
the `fetch` call becomes a `FetchOutcome` parameter, and the list of HTTP
requests issued during one invocation is returned alongside the new state.
-/

namespace EventFinder

/-- Role of a chat message, from the `Message` interface in Chat.tsx. -/
inductive Role where
  | user
  | assistant
deriving DecidableEq, Repr

/-- Event payload shape, from the `EventData` interface in EventCard.tsx.
Optional / nullable fields are collapsed to `Option`. -/
structure EventData where
  id : String
  title : String
  description : Option String
  date : String
  time : Option String
  location : Option String
  url : String
  source : String
  tags : Option (List String)
deriving DecidableEq, Repr

/-- A chat transcript entry, from the `Message` interface in Chat.tsx. -/
structure Message where
  id : String
  role : Role
  content : String
  events : Option (List EventData)
deriving DecidableEq, Repr

/-- Reply shape of POST /api/chat, from the `ChatResponse` interface in
Chat.tsx: a `response` string, a `conversation_id` string, and an optional
`events` list. -/
structure ChatResponse where
  response : String
  conversation_id : String
  events : Option (List EventData)
deriving DecidableEq, Repr

/-- JSON body sent by `sendMessage`: exactly the fields `message` and
`conversation_id` (the latter serialized as null when absent). -/
structure ChatRequestBody where
  message : String
  conversation_id : Option String
deriving DecidableEq, Repr

/-- An HTTP request as issued by the component. -/
structure ChatRequest where
  method : String
  url : String
  body : ChatRequestBody
deriving DecidableEq, Repr

/-- Outcome of the `fetch` to /api/chat: the promise rejects (network error),
the response is not ok, or it is ok with a parsed `ChatResponse`. -/
inductive FetchOutcome where
  | networkError
  | httpError
  | success (data : ChatResponse)
deriving DecidableEq, Repr

/-- The React state of the `Chat` component: `messages`, `input`,
`isLoading`, `conversationId`. -/
structure ChatState where
  messages : List Message
  input : String
  isLoading : Bool
  conversationId : Option String
deriving DecidableEq, Repr

/-- Initial `Chat` state from the `useState` initializers: empty message
list, empty input, not loading, no conversation id. -/
def initChatState : ChatState :=
  { messages := [], input := "", isLoading := false, conversationId := none }

/-- JavaScript `String.prototype.trim`: strip leading and trailing
whitespace. Stated structurally on the character list so that it evaluates
by kernel reduction. -/
def jsTrim (s : String) : String :=
  String.mk (((s.data.dropWhile Char.isWhitespace).reverse.dropWhile
    Char.isWhitespace).reverse)

/-- JavaScript truthiness test `!x` on a nullable string: null and the
empty string are falsy, every other string is truthy. -/
def jsFalsy : Option String → Bool
  | none => true
  | some s => s == ""

/-- One invocation of `sendMessage` in Chat.tsx. `uid` and `aid` stand for
the two `crypto.randomUUID()` results; `outcome` resolves the `fetch`.
The conversation-id update is guarded by `!conversationId`, i.e. by JS
falsiness of the stored id, not merely by its absence.
Returns the post-invocation state and the list of HTTP requests issued. -/
def sendMessage (uid aid : String) (st : ChatState) (outcome : FetchOutcome) :
    ChatState × List ChatRequest :=
  let trimmedInput := jsTrim st.input
  if trimmedInput = "" ∨ st.isLoading then (st, [])
  else
    let userMessage : Message :=
      { id := uid, role := Role.user, content := trimmedInput, events := none }
    let st1 : ChatState :=
      { st with messages := st.messages ++ [userMessage], input := "", isLoading := true }
    let req : ChatRequest :=
      { method := "POST", url := "/api/chat",
        body := { message := trimmedInput, conversation_id := st.conversationId } }
    match outcome with
    | FetchOutcome.success data =>
      let st2 : ChatState :=
        if jsFalsy st.conversationId then
          { st1 with conversationId := some data.conversation_id }
        else st1
      let assistantMessage : Message :=
        { id := aid, role := Role.assistant, content := data.response,
          events :=
            match data.events with
            | some evs => if 0 < evs.length then some evs else none
            | none => none }
      ({ st2 with messages := st2.messages ++ [assistantMessage], isLoading := false }, [req])
    | _ =>
      let errorMessage : Message :=
        { id := aid, role := Role.assistant,
          content := "Sorry, there was an error processing your message. Please try again.",
          events := none }
      ({ st1 with messages := st1.messages ++ [errorMessage], isLoading := false }, [req])

/-- One user turn at the UI: the user types `input` (replacing the input
box content) and submits; `outcome` resolves the network call. -/
structure Turn where
  uid : String
  aid : String
  input : String
  outcome : FetchOutcome

/-- Run one turn against the current component state. -/
def runTurn (st : ChatState) (t : Turn) : ChatState × List ChatRequest :=
  sendMessage t.uid t.aid { st with input := t.input } t.outcome

/-- Run a sequence of turns, collecting every HTTP request issued. -/
def runSession (st : ChatState) : List Turn → ChatState × List ChatRequest
  | [] => (st, [])
  | t :: ts =>
    let r1 := runTurn st t
    let r2 := runSession r1.1 ts
    (r2.1, r1.2 ++ r2.2)

/-- C10: with empty trimmed input or a request already in flight,
`sendMessage` issues no request and changes nothing: messages, input,
conversation id and loading flag are all left as they were. -/
theorem sendMessage_guard_no_effect (uid aid : String) (st : ChatState)
    (outcome : FetchOutcome) (h : jsTrim st.input = "" ∨ st.isLoading = true) :
    sendMessage uid aid st outcome = (st, []) := by
  rcases h with h | h
  · simp [sendMessage, h]
  · simp [sendMessage, h]

/-- Witness for C10 at the initial state (empty input). -/
theorem sendMessage_guard_no_effect_witness :
    sendMessage "u1" "a1" initChatState FetchOutcome.networkError = (initChatState, []) :=
  sendMessage_guard_no_effect "u1" "a1" initChatState FetchOutcome.networkError
    (Or.inl rfl)

/-- C1: whenever the guard passes, `sendMessage` issues exactly one request,
a POST to /api/chat whose body has exactly the fields `message` (the trimmed
input) and `conversation_id` (the stored id, or none on a first message);
the reply is interpreted through the `ChatResponse` shape. -/
theorem sendMessage_single_request (uid aid : String) (st : ChatState)
    (outcome : FetchOutcome) (hne : jsTrim st.input ≠ "") (hl : st.isLoading = false) :
    (sendMessage uid aid st outcome).2 =
      [{ method := "POST", url := "/api/chat",
         body := { message := jsTrim st.input, conversation_id := st.conversationId } }] := by
  rcases outcome with _ | _ | data <;> simp [sendMessage, hne, hl]

/-- A concrete chat state with pending input "hi", used by witnesses. -/
def chatStateHi : ChatState :=
  { messages := [], input := "hi", isLoading := false, conversationId := none }

/-- Witness for C1 at a concrete state with input "hi" and no stored id. -/
theorem sendMessage_single_request_witness :
    (sendMessage "u1" "a1" chatStateHi FetchOutcome.networkError).2 =
      [{ method := "POST", url := "/api/chat",
         body := { message := "hi", conversation_id := none } }] := by
  have h := sendMessage_single_request "u1" "a1" chatStateHi
    FetchOutcome.networkError (by decide) rfl
  exact h.trans (by decide)

/-- C2: on a failed request (network error or non-ok status), `sendMessage`
appends the user message followed by exactly one assistant message carrying
the fixed error text, clears the loading flag and leaves the conversation id
untouched; being a total function, it does not throw. -/
theorem sendMessage_error_appends_error_message (uid aid : String) (st : ChatState)
    (outcome : FetchOutcome) (hne : jsTrim st.input ≠ "") (hl : st.isLoading = false)
    (herr : outcome = FetchOutcome.networkError ∨ outcome = FetchOutcome.httpError) :
    (sendMessage uid aid st outcome).1.messages =
      st.messages ++
        [{ id := uid, role := Role.user, content := jsTrim st.input, events := none },
         { id := aid, role := Role.assistant,
           content := "Sorry, there was an error processing your message. Please try again.",
           events := none }] ∧
    (sendMessage uid aid st outcome).1.isLoading = false ∧
    (sendMessage uid aid st outcome).1.conversationId = st.conversationId := by
  rcases herr with h | h <;> subst h <;>
    exact ⟨by simp [sendMessage, hne, hl], by simp [sendMessage, hne, hl],
      by simp [sendMessage, hne, hl]⟩

/-- Witness for C2 on a concrete network failure. -/
theorem sendMessage_error_appends_error_message_witness :
    (sendMessage "u1" "a1" chatStateHi FetchOutcome.networkError).1.messages =
      [{ id := "u1", role := Role.user, content := "hi", events := none },
       { id := "a1", role := Role.assistant,
         content := "Sorry, there was an error processing your message. Please try again.",
         events := none }] ∧
    (sendMessage "u1" "a1" chatStateHi FetchOutcome.networkError).1.isLoading = false ∧
    (sendMessage "u1" "a1" chatStateHi FetchOutcome.networkError).1.conversationId = none := by
  have h := sendMessage_error_appends_error_message "u1" "a1" chatStateHi
    FetchOutcome.networkError (by decide) rfl (Or.inl rfl)
  exact ⟨h.1.trans (by decide), h.2.1, h.2.2⟩

/-- C3: a successfully completed turn appends exactly two entries, the user
message then the assistant response, to the previous message list; every
earlier entry is preserved unchanged. -/
theorem sendMessage_success_appends_two (uid aid : String) (st : ChatState)
    (data : ChatResponse) (hne : jsTrim st.input ≠ "") (hl : st.isLoading = false) :
    (sendMessage uid aid st (FetchOutcome.success data)).1.messages =
      st.messages ++
        [{ id := uid, role := Role.user, content := jsTrim st.input, events := none },
         { id := aid, role := Role.assistant, content := data.response,
           events :=
             match data.events with
             | some evs => if 0 < evs.length then some evs else none
             | none => none }] := by
  cases hf : jsFalsy st.conversationId <;> simp [sendMessage, hne, hl, hf]

/-- A concrete successful /api/chat reply, used by witnesses. -/
def respOk : ChatResponse :=
  { response := "ok", conversation_id := "c1", events := none }

/-- Witness for C3 on a concrete successful turn. -/
theorem sendMessage_success_appends_two_witness :
    (sendMessage "u1" "a1" chatStateHi (FetchOutcome.success respOk)).1.messages =
      [{ id := "u1", role := Role.user, content := "hi", events := none },
       { id := "a1", role := Role.assistant, content := "ok", events := none }] := by
  have h := sendMessage_success_appends_two "u1" "a1" chatStateHi respOk (by decide) rfl
  exact h.trans (by decide)

/-- Helper: once the conversation id is set to a non-empty (JS-truthy)
string, one `sendMessage` invocation keeps it and every request it issues
carries it. -/
theorem sendMessage_preserves_some_cid (uid aid : String) (st : ChatState)
    (outcome : FetchOutcome) (c : String) (h : st.conversationId = some c)
    (hcne : c ≠ "") :
    (sendMessage uid aid st outcome).1.conversationId = some c ∧
    ∀ r ∈ (sendMessage uid aid st outcome).2, r.body.conversation_id = some c := by
  by_cases hg : jsTrim st.input = "" ∨ st.isLoading = true
  · constructor
    · rcases hg with hg | hg <;> simp [sendMessage, hg, h]
    · intro r hr
      rcases hg with hg | hg <;> simp [sendMessage, hg] at hr
  · push_neg at hg
    rcases outcome with _ | _ | data <;>
      exact ⟨by simp [sendMessage, hg.1, hg.2, h, jsFalsy, hcne], by
        intro r hr
        simp [sendMessage, hg.1, hg.2, h] at hr
        simp [hr, h]⟩

/-- Helper: the non-empty conversation-id invariant extended over a whole
session. -/
theorem runSession_preserves_some_cid (c : String) (hcne : c ≠ "") :
    ∀ (ts : List Turn) (st : ChatState), st.conversationId = some c →
      (runSession st ts).1.conversationId = some c ∧
      ∀ r ∈ (runSession st ts).2, r.body.conversation_id = some c := by
  intro ts
  induction ts with
  | nil =>
    intro st h
    exact ⟨h, by intro r hr; simp [runSession] at hr⟩
  | cons t ts ih =>
    intro st h
    obtain ⟨h1, h2⟩ := sendMessage_preserves_some_cid t.uid t.aid
      { st with input := t.input } t.outcome c h hcne
    obtain ⟨h3, h4⟩ := ih (runTurn st t).1 (by simpa [runTurn] using h1)
    constructor
    · simpa [runSession] using h3
    · intro r hr
      simp only [runSession, List.mem_append] at hr
      rcases hr with hr | hr
      · exact h2 r (by simpa [runTurn] using hr)
      · exact h4 r hr

/-- A successful reply carrying the empty conversation id. -/
def respEmptyCid : ChatResponse :=
  { response := "ok", conversation_id := "", events := none }

/-- First turn of the counterexample session: the reply set the stored id
to the empty string. -/
def turnA : Turn :=
  { uid := "u1", aid := "a1", input := "hi", outcome := FetchOutcome.success respEmptyCid }

/-- Second turn of the counterexample session: the reply carries "c1". -/
def turnB : Turn :=
  { uid := "u2", aid := "a2", input := "again", outcome := FetchOutcome.success respOk }

/-- C4 counterexample: the claim that the stored id is never overwritten by
a later response fails — after a first successful reply returning
conversation_id "", the stored id is `some ""`, which is JS-falsy, so the
next successful reply overwrites it with "c1". -/
theorem chat_conversation_id_overwritten :
    (runSession initChatState [turnA]).1.conversationId = some "" ∧
    (runSession initChatState [turnA, turnB]).1.conversationId = some "c1" ∧
    ("" : String) ≠ "c1" := by
  exact ⟨by decide, by decide, by decide⟩

/-- C4 (amended): the stored conversation id starts absent; a first
successful reply sets it to the returned conversation_id; and once set to a
non-empty string it is never overwritten, with every later request in the
session carrying that same id. (A stored empty-string id is JS-falsy and is
overwritten by the next successful reply.) -/
theorem chat_conversation_id_lifecycle :
    initChatState.conversationId = none ∧
    (∀ (uid aid : String) (st : ChatState) (data : ChatResponse),
      jsTrim st.input ≠ "" → st.isLoading = false → st.conversationId = none →
      (sendMessage uid aid st (FetchOutcome.success data)).1.conversationId =
        some data.conversation_id) ∧
    (∀ (st : ChatState) (c : String) (ts : List Turn), st.conversationId = some c →
      c ≠ "" →
      (runSession st ts).1.conversationId = some c ∧
      ∀ r ∈ (runSession st ts).2, r.body.conversation_id = some c) := by
  refine ⟨rfl, ?_, ?_⟩
  · intro uid aid st data hne hl hc
    simp [sendMessage, hne, hl, hc, jsFalsy]
  · intro st c ts h hcne
    exact runSession_preserves_some_cid c hcne ts st h

/-- A concrete chat state that already carries a conversation id. -/
def chatStateWithCid : ChatState :=
  { messages := [], input := "hey", isLoading := false, conversationId := some "c1" }

/-- A concrete follow-up turn, used by the C4 witness. -/
def turn1 : Turn :=
  { uid := "u2", aid := "a2", input := "more", outcome := FetchOutcome.success respOk }

/-- The request `turn1` issues from `chatStateWithCid`. -/
def reqT1 : ChatRequest :=
  { method := "POST", url := "/api/chat",
    body := { message := "more", conversation_id := some "c1" } }

/-- Witness for C4 at concrete states and a concrete one-turn session. -/
theorem chat_conversation_id_lifecycle_witness :
    initChatState.conversationId = none ∧
    (sendMessage "u1" "a1" chatStateHi (FetchOutcome.success respOk)).1.conversationId =
      some "c1" ∧
    (runSession chatStateWithCid [turn1]).1.conversationId = some "c1" ∧
    reqT1.body.conversation_id = some "c1" := by
  obtain ⟨h1, h2, h3⟩ := chat_conversation_id_lifecycle
  have hs := h3 chatStateWithCid "c1" [turn1] rfl (by decide)
  exact ⟨h1, h2 "u1" "a1" chatStateHi respOk (by decide) rfl rfl, hs.1,
    hs.2 reqT1 (by decide)⟩

/-- Registry entry shape, from the `Plugin` interface in PluginPanel.tsx:
exactly the fields `name`, `source_url`, `description`. -/
structure Plugin where
  name : String
  source_url : String
  description : String
deriving DecidableEq, Repr

/-- React state of the `PluginPanel` component. -/
structure PluginPanelState where
  plugins : List Plugin
  isLoading : Bool
  isGenerating : Bool
  showModal : Bool
  pluginUrl : String
  generationError : Option String
  generationSuccess : Option String
deriving DecidableEq, Repr

/-- Initial `PluginPanel` state from its `useState` initializers. -/
def initPluginPanelState : PluginPanelState :=
  { plugins := [], isLoading := true, isGenerating := false, showModal := false,
    pluginUrl := "", generationError := none, generationSuccess := none }

/-- Outcome of the `fetch` to GET /api/plugins. -/
inductive PluginsFetchOutcome where
  | networkError
  | httpError
  | success (data : List Plugin)
deriving DecidableEq, Repr

/-- One invocation of `fetchPlugins` in PluginPanel.tsx: on success the
plugin list is replaced by the returned data; any failure is only logged;
the loading flag ends false either way. -/
def fetchPlugins (st : PluginPanelState) (outcome : PluginsFetchOutcome) :
    PluginPanelState :=
  let st1 := { st with isLoading := true }
  match outcome with
  | PluginsFetchOutcome.success data => { st1 with plugins := data, isLoading := false }
  | _ => { st1 with isLoading := false }

/-- What the panel shows for one plugin: the React `key`, the heading text,
the link target and label, and the description paragraph (omitted when the
description string is empty, per JS truthiness). -/
structure PluginEntry where
  key : String
  heading : String
  linkHref : String
  linkLabel : String
  descriptionShown : Option String
deriving DecidableEq, Repr

/-- The JSX `plugins.map(...)` rendering of the plugin list. -/
def renderPluginList (ps : List Plugin) : List PluginEntry :=
  ps.map fun p =>
    { key := p.name, heading := p.name, linkHref := p.source_url,
      linkLabel := p.source_url,
      descriptionShown := if p.description = "" then none else some p.description }

/-- The displayed entry derived from one plugin record. -/
def pluginEntryOf (p : Plugin) : PluginEntry :=
  { key := p.name, heading := p.name, linkHref := p.source_url,
    linkLabel := p.source_url,
    descriptionShown := if p.description = "" then none else some p.description }

/-- C7: a successful /api/plugins fetch stores the returned records
unchanged, and the panel renders exactly one entry per returned plugin, in
the returned order, each keyed by the plugin's name. -/
theorem pluginPanel_renders_fetched_list (st : PluginPanelState) (data : List Plugin) :
    (fetchPlugins st (PluginsFetchOutcome.success data)).plugins = data ∧
    (renderPluginList data).length = data.length ∧
    List.map PluginEntry.key (renderPluginList data) = List.map Plugin.name data ∧
    ∀ i : Nat, (renderPluginList data).get? i = Option.map pluginEntryOf (data.get? i) := by
  refine ⟨rfl, by simp [renderPluginList], ?_, ?_⟩
  · simp [renderPluginList]
  · intro i
    simp only [renderPluginList, List.get?_map]
    rfl

/-- C8 and C7 fixture: classification of a chat reply by
`handleGeneratePlugin`, from PluginPanel.tsx: the reply counts as a failure
exactly when its lowercased text contains "error" or "failed". -/
def isFailureResponse (r : String) : Bool :=
  decide (("error".data).IsInfix ((r.toLower).data)) ||
  decide (("failed".data).IsInfix ((r.toLower).data))

/-- Fixed error text shown when the generation request itself fails. -/
def genFailureText : String := "Failed to generate plugin. Please try again."

/-- The observable outcome of one `handleGeneratePlugin` invocation: the new
panel state, whether a plugin-list re-fetch was issued, and whether the
delayed modal close was scheduled. -/
structure GenStepResult where
  state : PluginPanelState
  refetched : Bool
  closeScheduled : Bool
deriving DecidableEq, Repr

/-- One invocation of `handleGeneratePlugin` in PluginPanel.tsx. `outcome`
resolves the POST /api/chat; `fetchOutcome` resolves the nested
`fetchPlugins` call made on the success-classified path. -/
def handleGeneratePlugin (st : PluginPanelState) (outcome : FetchOutcome)
    (fetchOutcome : PluginsFetchOutcome) : GenStepResult :=
  let trimmedUrl := jsTrim st.pluginUrl
  if trimmedUrl = "" then { state := st, refetched := false, closeScheduled := false }
  else
    let st1 :=
      { st with isGenerating := true, generationError := none, generationSuccess := none }
    match outcome with
    | FetchOutcome.success data =>
      if isFailureResponse data.response then
        { state := { st1 with generationError := some data.response, isGenerating := false },
          refetched := false, closeScheduled := false }
      else
        let st2 := { st1 with generationSuccess := some data.response }
        let st3 := fetchPlugins st2 fetchOutcome
        { state := { st3 with isGenerating := false },
          refetched := true, closeScheduled := true }
    | _ =>
      { state := { st1 with generationError := some genFailureText, isGenerating := false },
        refetched := false, closeScheduled := false }

/-- C8: a generation reply is classified as a failure iff its lowercased
text contains "error" or "failed"; only a success-classified reply triggers
the plugin-list re-fetch and the delayed modal close, and a
failure-classified reply leaves the plugin list un-refreshed. -/
theorem generatePlugin_classification (st : PluginPanelState) (data : ChatResponse)
    (fo : PluginsFetchOutcome) (h : jsTrim st.pluginUrl ≠ "") :
    (isFailureResponse data.response = true ↔
      (("error".data).IsInfix ((data.response.toLower).data) ∨
       ("failed".data).IsInfix ((data.response.toLower).data))) ∧
    ((handleGeneratePlugin st (FetchOutcome.success data) fo).refetched = true ∧
      (handleGeneratePlugin st (FetchOutcome.success data) fo).closeScheduled = true ↔
      isFailureResponse data.response = false) ∧
    (isFailureResponse data.response = true →
      (handleGeneratePlugin st (FetchOutcome.success data) fo).state.plugins =
        st.plugins ∧
      (handleGeneratePlugin st (FetchOutcome.success data) fo).refetched = false) := by
  refine ⟨?_, ?_, ?_⟩
  · simp [isFailureResponse]
  · cases hf : isFailureResponse data.response <;>
      simp [handleGeneratePlugin, h, hf]
  · intro hf
    constructor <;> simp [handleGeneratePlugin, h, hf]

/-- A concrete panel state with a pending URL, used by the C8 witness. -/
def panelStateUrl : PluginPanelState :=
  { initPluginPanelState with pluginUrl := "https://example.com/events" }

/-- A concrete success-classified generation reply. -/
def respCreated : ChatResponse :=
  { response := "Created plugin lumaevents.", conversation_id := "c2", events := none }

/-- Witness for C8 at a concrete state and reply. -/
theorem generatePlugin_classification_witness :
    (isFailureResponse respCreated.response = true ↔
      (("error".data).IsInfix ((respCreated.response.toLower).data) ∨
       ("failed".data).IsInfix ((respCreated.response.toLower).data))) ∧
    ((handleGeneratePlugin panelStateUrl (FetchOutcome.success respCreated)
        (PluginsFetchOutcome.success [])).refetched = true ∧
      (handleGeneratePlugin panelStateUrl (FetchOutcome.success respCreated)
        (PluginsFetchOutcome.success [])).closeScheduled = true ↔
      isFailureResponse respCreated.response = false) ∧
    (isFailureResponse respCreated.response = true →
      (handleGeneratePlugin panelStateUrl (FetchOutcome.success respCreated)
        (PluginsFetchOutcome.success [])).state.plugins = panelStateUrl.plugins ∧
      (handleGeneratePlugin panelStateUrl (FetchOutcome.success respCreated)
        (PluginsFetchOutcome.success [])).refetched = false) :=
  generatePlugin_classification panelStateUrl respCreated
    (PluginsFetchOutcome.success []) (by decide)

/-- A JavaScript `Date` value: a numeric time value, or the Invalid Date
produced when the constructor cannot parse its string argument. -/
inductive JsDate where
  | valid (timeValue : Int)
  | invalid
deriving DecidableEq, Repr

/-- The `formatDate` helper of EventCard.tsx. The two built-ins it uses are
passed in as `Except`-valued functions so that the try/catch structure of
the source is represented: an `error` result models a thrown exception and
is caught by the branch returning the original input. -/
def formatDate (newDate : String → Except String JsDate)
    (toLocaleDateString : JsDate → Except String String) (dateStr : String) : String :=
  match newDate dateStr with
  | Except.error _ => dateStr
  | Except.ok date =>
    match toLocaleDateString date with
    | Except.ok out => out
    | Except.error _ => dateStr

/-- Modelled from the spec: a model of the ECMAScript `Date` constructor,
which never throws on a string argument — an unparseable string yields the
Invalid Date. The parse itself is a simplified stand-in (digit strings are
taken as time values); only its totality matters to the claims. -/
def jsNewDate (s : String) : Except String JsDate :=
  Except.ok
    (match s.toNat? with
     | some n => JsDate.valid (Int.ofNat n)
     | none => JsDate.invalid)

/-- Modelled from the spec: a model of `Date.prototype.toLocaleDateString`,
which never throws for valid option arguments — an Invalid Date renders as
the string "Invalid Date". -/
def jsToLocaleDateString (d : JsDate) : Except String String :=
  match d with
  | JsDate.valid t => Except.ok ("Date@" ++ toString t)
  | JsDate.invalid => Except.ok "Invalid Date"

/-- C9: when the two built-ins are total (as ECMAScript specifies for the
`Date` constructor and `toLocaleDateString`), `formatDate` is total, its
catch branch returning the raw input is unreachable, and every input — even
an unparseable one — is rendered as the locale formatting of the
constructed (possibly invalid) date. -/
theorem formatDate_catch_unreachable
    (newDate : String → Except String JsDate)
    (toLocaleDateString : JsDate → Except String String)
    (hnd : ∀ s, ∃ d, newDate s = Except.ok d)
    (htl : ∀ d, ∃ out, toLocaleDateString d = Except.ok out) :
    ∀ dateStr, ∃ d out, newDate dateStr = Except.ok d ∧
      toLocaleDateString d = Except.ok out ∧
      formatDate newDate toLocaleDateString dateStr = out := by
  intro dateStr
  obtain ⟨d, hd⟩ := hnd dateStr
  obtain ⟨out, hout⟩ := htl d
  exact ⟨d, out, hd, hout, by simp [formatDate, hd, hout]⟩

/-- Witness for C9 at the modelled built-ins and an unparseable input. -/
theorem formatDate_catch_unreachable_witness :
    ∃ d out, jsNewDate "not-a-date" = Except.ok d ∧
      jsToLocaleDateString d = Except.ok out ∧
      formatDate jsNewDate jsToLocaleDateString "not-a-date" = out :=
  formatDate_catch_unreachable jsNewDate jsToLocaleDateString
    (fun s => ⟨_, rfl⟩)
    (fun d => by cases d <;> exact ⟨_, rfl⟩)
    "not-a-date"

/-- Modelled from the spec: the backend Aggregation & Ranking Engine is not
present under src, so its dedup key follows §4.5 step 4 — two Events are
the same occurrence if they share `url`, or, when `url` is missing or
blank, if they share the (`title`, `date`, `source`) triple. -/
inductive DedupKey where
  | byUrl (url : String)
  | byTriple (title date source : String)
deriving DecidableEq, Repr

/-- The dedup key of one event: its `url`, or the fallback triple when the
url is missing or blank. -/
def dedupKey (e : EventData) : DedupKey :=
  if jsTrim e.url = "" then DedupKey.byTriple e.title e.date e.source
  else DedupKey.byUrl e.url

/-- Deduplication worker: `seen` holds the keys already emitted; a later
event whose key was seen is dropped, otherwise it is kept and its key
recorded. -/
def dedupGo (seen : List DedupKey) :
    List EventData → List EventData
  | [] => []
  | e :: rest =>
    if dedupKey e ∈ seen then dedupGo seen rest
    else e :: dedupGo (dedupKey e :: seen) rest

/-- Modelled from the spec: first-seen-wins deduplication of the
aggregated event set (§4.5 step 4). -/
def dedup (es : List EventData) : List EventData := dedupGo [] es

/-- Helper: deduplication only drops events, preserving order. -/
theorem dedupGo_sublist : ∀ (es : List EventData) (seen : List DedupKey),
    List.Sublist (dedupGo seen es) es := by
  intro es
  induction es with
  | nil => intro seen; simp [dedupGo]
  | cons e rest ih =>
    intro seen
    by_cases h : dedupKey e ∈ seen
    · simp only [dedupGo]
      rw [if_pos h]
      exact List.Sublist.cons e (ih seen)
    · simp only [dedupGo]
      rw [if_neg h]
      exact List.Sublist.cons₂ e (ih _)

/-- Helper: an emitted event's key was not among the already-seen keys. -/
theorem dedupGo_key_not_seen : ∀ (es : List EventData) (seen : List DedupKey)
    (e : EventData), e ∈ dedupGo seen es → dedupKey e ∉ seen := by
  intro es
  induction es with
  | nil => intro seen e h; simp [dedupGo] at h
  | cons a rest ih =>
    intro seen e h
    by_cases ha : dedupKey a ∈ seen
    · simp only [dedupGo] at h
      rw [if_pos ha] at h
      exact ih seen e h
    · simp only [dedupGo] at h
      rw [if_neg ha] at h
      rcases List.mem_cons.mp h with rfl | h2
      · exact ha
      · intro hc
        exact (ih _ e h2) (List.mem_cons_of_mem _ hc)

/-- Helper: the emitted events have pairwise distinct dedup keys. -/
theorem dedupGo_keys_nodup : ∀ (es : List EventData) (seen : List DedupKey),
    ((dedupGo seen es).map dedupKey).Nodup := by
  intro es
  induction es with
  | nil => intro seen; simp [dedupGo]
  | cons a rest ih =>
    intro seen
    by_cases ha : dedupKey a ∈ seen
    · simp only [dedupGo]
      rw [if_pos ha]
      exact ih seen
    · simp only [dedupGo]
      rw [if_neg ha]
      simp only [List.map_cons, List.nodup_cons]
      refine ⟨?_, ih _⟩
      intro hmem
      rcases List.mem_map.mp hmem with ⟨e, he, hkey⟩
      exact (dedupGo_key_not_seen rest _ e he) (hkey ▸ List.mem_cons_self _ _)

/-- Helper: every emitted event is the first event of the input list that
carries its dedup key. -/
theorem dedupGo_first_seen : ∀ (es : List EventData) (seen : List DedupKey)
    (e : EventData), e ∈ dedupGo seen es →
    List.find? (fun x => decide (dedupKey x = dedupKey e)) es = some e := by
  intro es
  induction es with
  | nil => intro seen e h; simp [dedupGo] at h
  | cons a rest ih =>
    intro seen e h
    by_cases ha : dedupKey a ∈ seen
    · simp only [dedupGo] at h
      rw [if_pos ha] at h
      have hne : dedupKey a ≠ dedupKey e := by
        intro hc
        exact (dedupGo_key_not_seen rest seen e h) (hc ▸ ha)
      rw [List.find?_cons_of_neg _ (by simp [hne])]
      exact ih seen e h
    · simp only [dedupGo] at h
      rw [if_neg ha] at h
      rcases List.mem_cons.mp h with rfl | h2
      · rw [List.find?_cons_of_pos _ (by simp)]
      · have hke := dedupGo_key_not_seen rest (dedupKey a :: seen) e h2
        have hne : dedupKey a ≠ dedupKey e := by
          intro hc
          exact hke (hc ▸ List.mem_cons_self _ _)
        rw [List.find?_cons_of_neg _ (by simp [hne])]
        exact ih _ e h2

/-- Helper: every input key not already seen is represented in the
output. -/
theorem dedupGo_covers : ∀ (es : List EventData) (seen : List DedupKey)
    (e : EventData), e ∈ es → dedupKey e ∉ seen →
    ∃ x ∈ dedupGo seen es, dedupKey x = dedupKey e := by
  intro es
  induction es with
  | nil => intro seen e h; simp at h
  | cons a rest ih =>
    intro seen e h hns
    by_cases ha : dedupKey a ∈ seen
    · simp only [dedupGo]
      rw [if_pos ha]
      rcases List.mem_cons.mp h with rfl | h2
      · exact absurd ha hns
      · exact ih seen e h2 hns
    · simp only [dedupGo]
      rw [if_neg ha]
      by_cases hk : dedupKey e = dedupKey a
      · exact ⟨a, List.mem_cons_self _ _, hk.symm⟩
      · rcases List.mem_cons.mp h with rfl | h2
        · exact absurd rfl hk
        · obtain ⟨x, hx, hxk⟩ := ih (dedupKey a :: seen) e h2 (by
            intro hc
            rcases List.mem_cons.mp hc with hc | hc
            · exact hk hc
            · exact hns hc)
          exact ⟨x, List.mem_cons_of_mem _ hx, hxk⟩

/-- C5: deduplication keeps, among events sharing a dedup key (the `url`,
or the (`title`, `date`, `source`) triple when the url is blank), exactly
the first-seen event: the output is an order-preserving subsequence of the
input, its keys are pairwise distinct, each kept event is the first of the
input with its key, and every input key is still represented. -/
theorem dedup_first_seen_wins (es : List EventData) :
    List.Sublist (dedup es) es ∧
    ((dedup es).map dedupKey).Nodup ∧
    (∀ e ∈ dedup es, List.find? (fun x => decide (dedupKey x = dedupKey e)) es = some e) ∧
    (∀ e ∈ es, ∃ x ∈ dedup es, dedupKey x = dedupKey e) := by
  refine ⟨dedupGo_sublist es [], dedupGo_keys_nodup es [], ?_, ?_⟩
  · intro e he
    exact dedupGo_first_seen es [] e he
  · intro e he
    exact dedupGo_covers es [] e he (by simp)

/-- Concrete event fixtures: `ev1` and `ev2` share a url; `ev3` and `ev4`
have blank urls and share (`title`, `date`, `source`). -/
def ev1 : EventData :=
  { id := "1", title := "Hack Night", description := none, date := "2025-05-01",
    time := none, location := none, url := "https://a.com/1", source := "Luma",
    tags := none }

/-- Same url as `ev1`, different title casing. -/
def ev2 : EventData :=
  { id := "2", title := "HACK NIGHT", description := none, date := "2025-05-01",
    time := none, location := none, url := "https://a.com/1", source := "Luma",
    tags := none }

/-- A blank-url event. -/
def ev3 : EventData :=
  { id := "3", title := "Meetup", description := none, date := "2025-05-02",
    time := none, location := none, url := "", source := "Eventbrite", tags := none }

/-- A later duplicate of `ev3` under the fallback key. -/
def ev4 : EventData :=
  { id := "4", title := "Meetup", description := none, date := "2025-05-02",
    time := none, location := none, url := "", source := "Eventbrite", tags := none }

/-- An aggregated event list with both kinds of duplicates. -/
def eventsDup : List EventData := [ev1, ev2, ev3, ev4]

/-- Witness for C5 on `eventsDup`. -/
theorem dedup_first_seen_wins_witness :
    List.find? (fun x => decide (dedupKey x = dedupKey ev1)) eventsDup = some ev1 ∧
    (∃ x ∈ dedup eventsDup, dedupKey x = dedupKey ev2) ∧
    (∃ x ∈ dedup eventsDup, dedupKey x = dedupKey ev4) ∧
    List.Sublist (dedup eventsDup) eventsDup := by
  obtain ⟨h1, h2, h3, h4⟩ := dedup_first_seen_wins eventsDup
  exact ⟨h3 ev1 (by decide), h4 ev2 (by decide), h4 ev4 (by decide), h1⟩

/-- Outcome of one plugin's `scrape()` inside an aggregation cycle. -/
inductive ScrapeOutcome where
  | ok (events : List EventData)
  | error
  | timeout
deriving DecidableEq, Repr

/-- Modelled from the spec: step 3 of `find` — concatenate the events of
the plugins that succeeded; a plugin that timed out or raised contributes
the empty list (§4.5 step 2). -/
def aggregateEvents : List ScrapeOutcome → List EventData
  | [] => []
  | r :: rest =>
    (match r with
     | ScrapeOutcome.ok evs => evs
     | _ => []) ++ aggregateEvents rest

/-- Modelled from the spec: `find(interest_text)` of the Aggregation &
Ranking Engine (§4.5), absent from src. Scrape outcomes arrive as
`results`; the external ranking/generation capability is the `rank`
parameter; an empty deduplicated set short-circuits to the deterministic
no-match explanation without consulting `rank`. -/
def find (results : List ScrapeOutcome)
    (rank : String → List EventData → String × List EventData)
    (interest : String) : String × List EventData :=
  let events := dedup (aggregateEvents results)
  if events.isEmpty then ("no matching events found", [])
  else rank interest events

/-- Helper: if every plugin failed, no events are aggregated. -/
theorem aggregateEvents_all_failed : ∀ results : List ScrapeOutcome,
    (∀ r ∈ results, r = ScrapeOutcome.error ∨ r = ScrapeOutcome.timeout) →
    aggregateEvents results = [] := by
  intro results
  induction results with
  | nil => intro _; rfl
  | cons r rest ih =>
    intro h
    have hr := h r (List.mem_cons_self _ _)
    have htail := ih fun x hx => h x (List.mem_cons_of_mem _ hx)
    rcases hr with rfl | rfl <;> simp [aggregateEvents, htail]

/-- C6: when every registered plugin's scrape times out or raises, `find`
returns the empty ranked sequence with a non-empty explanation, does not
consult the ranking capability, and — being a total function — never
raises. -/
theorem find_total_failure (results : List ScrapeOutcome)
    (rank rank2 : String → List EventData → String × List EventData)
    (interest : String)
    (h : ∀ r ∈ results, r = ScrapeOutcome.error ∨ r = ScrapeOutcome.timeout) :
    (find results rank interest).2 = [] ∧
    (find results rank interest).1 ≠ "" ∧
    find results rank interest = find results rank2 interest := by
  have hagg : aggregateEvents results = [] := aggregateEvents_all_failed results h
  have hd : dedup (aggregateEvents results) = [] := by rw [hagg]; rfl
  have hfind : ∀ rk : String → List EventData → String × List EventData,
      find results rk interest = ("no matching events found", []) := by
    intro rk
    simp [find, hd]
  refine ⟨by rw [hfind rank], ?_, by rw [hfind rank, hfind rank2]⟩
  rw [hfind rank]
  decide

/-- A results list in which every plugin failed. -/
def failedResults : List ScrapeOutcome := [ScrapeOutcome.error, ScrapeOutcome.timeout]

/-- A concrete ranking capability. -/
def rankKeep : String → List EventData → String × List EventData :=
  fun _ evs => ("ranked", evs)

/-- A second, observably different ranking capability. -/
def rankDrop : String → List EventData → String × List EventData :=
  fun _ evs => ("other", evs.reverse)

/-- Witness for C6 on `failedResults`. -/
theorem find_total_failure_witness :
    (find failedResults rankKeep "AI meetups").2 = [] ∧
    (find failedResults rankKeep "AI meetups").1 ≠ "" ∧
    find failedResults rankKeep "AI meetups" = find failedResults rankDrop "AI meetups" :=
  find_total_failure failedResults rankKeep rankDrop "AI meetups" (by decide)

end EventFinder
